import Mathlib

/-!
Shallow embedding of the two workflows of the repository:

* `AnalyzeVideo` — the serverless handler in
  `src/supabase/functions/analyze-video/index.ts`.  The handler is a
  linear chain of awaited external calls (storage download, Whisper
  transcription, chat completion, database update) wrapped in a single
  try/catch.  We model it as a pure function from the request and an
  environment (the results the external services would return) to the
  HTTP response together with the ordered trace of external calls made.

* `FileUpload` — the browser upload widget in `src/unnamed/part_000`
  (`handleFileChange`).  Modelled the same way: the environment holds the
  results of the storage upload and the edge-function invocation, and the
  function returns the ordered trace of observable effects (busy-flag
  writes, upload, invocation, callback, toasts).

JavaScript truthiness of an optional string field (`!x` is true for an
absent field and for the empty string) is embedded as `truthy`.
-/

/-- JS truthiness of an optional string: an absent field and the empty
string are falsy, every other string is truthy. -/
def truthy : Option String → Bool
  | none => false
  | some s => decide (s ≠ "")

namespace AnalyzeVideo

/-- The CORS headers object from `index.ts` lines 7-10. -/
def corsHeaders : List (String × String) :=
  [("Access-Control-Allow-Origin", "*"),
   ("Access-Control-Allow-Headers", "authorization, x-client-info, apikey, content-type")]

/-- Headers of the JSON success and error responses:
`{ ...corsHeaders, 'Content-Type': 'application/json' }`. -/
def jsonHeaders : List (String × String) :=
  corsHeaders ++ [("Content-Type", "application/json")]

/-- The fields the handler destructures from the request JSON body
(`const { applicationId, videoPath } = await req.json()`); each may be
absent. -/
structure ReqBody where
  applicationId : Option String
  videoPath : Option String
deriving DecidableEq, Repr

/-- An incoming HTTP request: its method and its JSON body.
`body = none` models a body that fails to parse as JSON, in which case
`req.json()` throws and the catch block answers. -/
structure Request where
  method : String
  body : Option ReqBody
deriving DecidableEq, Repr

/-- The results the external services return during one run: the
environment the handler's awaited calls draw from. -/
structure Env where
  /-- the `error` of `supabaseClient.storage.from('applications').download`. -/
  downloadError : Option String
  /-- whether `data` of the download is non-null. -/
  downloadHasData : Bool
  /-- the `transcriptionResponse.ok` flag of the Whisper fetch. -/
  transcriptionOk : Bool
  /-- the error body read when the Whisper response is not ok. -/
  transcriptionErrorText : String
  /-- the `text` field of the Whisper response JSON (may be absent). -/
  transcriptText : Option String
  /-- a rejection of `openai.chat.completions.create`, if any. -/
  completionError : Option String
  /-- the `analysisResponse.choices[0].message.content` value (string or null). -/
  analysisContent : Option String
  /-- the `error` of the `.from('applications').update(...).eq('id', ...)`. -/
  updateError : Option String
deriving DecidableEq, Repr

/-- The body of an HTTP response built by the handler: the body-less
pre-flight response, the 200 success JSON `{ transcript, analysis }`,
or the 500 error JSON `{ error }`. -/
inductive Body where
  | empty : Body
  | success (transcript : String) (analysis : Option String) : Body
  | error (msg : String) : Body
deriving DecidableEq, Repr

/-- An HTTP response: status, headers, body. -/
structure HttpResponse where
  status : Nat
  headers : List (String × String)
  body : Body
deriving DecidableEq, Repr

/-- One observable external call made by the handler, in order. -/
inductive Event where
  | download (bucket path : String) : Event
  | transcription : Event
  | completion (userContent : String) : Event
  | dbUpdate (table id transcript : String) (analysis : Option String)
      (status : String) : Event
deriving DecidableEq, Repr

/-- The 500 error response of the catch block (lines 131-145). -/
def errorResponse (msg : String) : HttpResponse :=
  { status := 500, headers := jsonHeaders, body := Body.error msg }

/-- The `serve` handler of `index.ts`, as a pure function from the request
and the environment to the response and the ordered trace of external
calls.  Each `throw` in the source becomes an early return of the catch
block's `errorResponse` with the thrown message. -/
def handler (req : Request) (env : Env) : HttpResponse × List Event :=
  if req.method = "OPTIONS" then
    ({ status := 200, headers := corsHeaders, body := Body.empty }, [])
  else
    match req.body with
    | none =>
      -- `await req.json()` throws; the catch block returns its message.
      (errorResponse "Unexpected end of JSON input", [])
    | some b =>
      if !(truthy b.applicationId) || !(truthy b.videoPath) then
        (errorResponse "Missing required parameters: applicationId or videoPath", [])
      else
        let vp := b.videoPath.getD ""
        let appId := b.applicationId.getD ""
        let ev₁ : List Event := [Event.download "applications" vp]
        match env.downloadError with
        | some e => (errorResponse ("Failed to download video: " ++ e), ev₁)
        | none =>
          if !env.downloadHasData then
            (errorResponse "No video data received from storage", ev₁)
          else
            let ev₂ := ev₁ ++ [Event.transcription]
            if !env.transcriptionOk then
              (errorResponse ("OpenAI Whisper API error: " ++ env.transcriptionErrorText), ev₂)
            else if !(truthy env.transcriptText) then
              (errorResponse "No transcript received from OpenAI", ev₂)
            else
              let t := env.transcriptText.getD ""
              let ev₃ := ev₂ ++ [Event.completion t]
              match env.completionError with
              | some e => (errorResponse e, ev₃)
              | none =>
                let ev₄ := ev₃ ++
                  [Event.dbUpdate "applications" appId t env.analysisContent "video_analyzed"]
                match env.updateError with
                | some e => (errorResponse ("Failed to update application: " ++ e), ev₄)
                | none =>
                  ({ status := 200, headers := jsonHeaders,
                     body := Body.success t env.analysisContent }, ev₄)

/-- Recogniser for database-update events. -/
def Event.isDbUpdate : Event → Bool
  | Event.dbUpdate _ _ _ _ _ => true
  | _ => false

end AnalyzeVideo

namespace FileUpload

/-- The object the `process-job-document` invocation returns as `data`;
every field may be absent. -/
structure JobDocData where
  title : Option String
  description : Option String
  good_candidate_attributes : Option String
  bad_candidate_attributes : Option String
  essential_attributes : Option (List String)
deriving DecidableEq, Repr

/-- The argument shape of the caller-supplied `onProcessed` callback,
as built at lines 50-56 of the widget. -/
structure ProcessedResult where
  title : Option String
  description : Option String
  good_candidate_attributes : Option String
  bad_candidate_attributes : Option String
  essential_attributes : List String
deriving DecidableEq, Repr

/-- The results the external services return during one invocation of
`handleFileChange`. -/
structure WidgetEnv where
  /-- the value of `new Date().getTime()` at the moment of the call. -/
  now : Nat
  /-- the `error` of the storage upload. -/
  uploadError : Option String
  /-- the `error` of `supabase.functions.invoke('process-job-document', ...)`. -/
  invokeError : Option String
  /-- the `data` of the invocation (null or an object). -/
  invokeData : Option JobDocData
deriving DecidableEq, Repr

/-- One observable effect of `handleFileChange`, in order. -/
inductive WEvent where
  | setUploading (b : Bool) : WEvent
  | upload (bucket path : String) : WEvent
  | invoke (fn path : String) : WEvent
  | processedCallback (r : ProcessedResult) : WEvent
  | toast (success : Bool) (title msg : String) : WEvent
deriving DecidableEq, Repr

/-- Embedding of `file.name.replace(/[^\x00-\x7F]/g, '')`: drop every character whose
code point is above 0x7F, keeping the rest in order. -/
def sanitizeFileName (name : String) : String :=
  String.mk (name.data.filter (fun c => c.toNat ≤ 0x7F))

/-- The storage key built at lines 29-31 of the widget:
`job-documents/TIMESTAMP_SANITIZEDNAME`. -/
def filePathOf (now : Nat) (name : String) : String :=
  "job-documents/" ++ toString now ++ "_" ++ sanitizeFileName name

/-- Embedding of `handleFileChange` of the upload widget, as a pure function from the
names of the selected files and the environment to the ordered trace of
observable effects.  Each `throw` jumps to the catch block (error toast)
and then the finally block (`setUploading false`). -/
def handleFileChange (files : List String) (env : WidgetEnv) : List WEvent :=
  match files with
  | [] => []
  | name :: _ =>
    let filePath := filePathOf env.now name
    let start := [WEvent.setUploading true, WEvent.upload "job-documents" filePath]
    let finish := [WEvent.setUploading false]
    match env.uploadError with
    | some e => start ++ [WEvent.toast false "Error" e] ++ finish
    | none =>
      let start := start ++ [WEvent.invoke "process-job-document" filePath]
      match env.invokeError with
      | some e => start ++ [WEvent.toast false "Error" e] ++ finish
      | none =>
        -- `if (!data?.description) throw ...`: null data and an absent or
        -- empty description are rejected alike.
        match env.invokeData with
        | none => start ++ [WEvent.toast false "Error" "No content extracted from document"] ++ finish
        | some d =>
          if !(truthy d.description) then
            start ++ [WEvent.toast false "Error" "No content extracted from document"] ++ finish
          else
            let r : ProcessedResult :=
              { title := d.title
                description := d.description
                good_candidate_attributes := d.good_candidate_attributes
                bad_candidate_attributes := d.bad_candidate_attributes
                essential_attributes := d.essential_attributes.getD [] }
            start ++ [WEvent.processedCallback r,
                      WEvent.toast true "Success" "Job description processed successfully"] ++ finish

/-- Recogniser for busy-flag writes. -/
def WEvent.isSetUploading : WEvent → Bool
  | WEvent.setUploading _ => true
  | _ => false

/-- Recogniser for storage uploads. -/
def WEvent.isUpload : WEvent → Bool
  | WEvent.upload _ _ => true
  | _ => false

/-- Recogniser for edge-function invocations. -/
def WEvent.isInvoke : WEvent → Bool
  | WEvent.invoke _ _ => true
  | _ => false

/-- Recogniser for calls of the `onProcessed` callback. -/
def WEvent.isCallback : WEvent → Bool
  | WEvent.processedCallback _ => true
  | _ => false

end FileUpload

namespace AnalyzeVideo

/-- A non-pre-flight request whose JSON body carries both fields. -/
def postReq (m appId vp : String) : Request :=
  { method := m, body := some { applicationId := some appId, videoPath := some vp } }

/-- An environment in which every external call succeeds: the download
returns data without error, the Whisper response is ok and carries text
`t`, the completion resolves with content `a`, and the database update
reports no error. -/
def successEnv (et t : String) (a : Option String) : Env :=
  { downloadError := none, downloadHasData := true, transcriptionOk := true,
    transcriptionErrorText := et, transcriptText := some t,
    completionError := none, analysisContent := a, updateError := none }

/-- Claim C1: on a run in which the download, the transcription and the
completion all succeed and the database update reports no error, the
handler issues exactly one database update — on the `applications` record
with the supplied id, setting the transcript to the transcription text,
the analysis to the completion content, and the status to
`video_analyzed` — and returns a 200 response whose body carries exactly
those transcript and analysis values. -/
theorem analyze_success_single_update (m appId vp et t : String) (a : Option String)
    (hm : m ≠ "OPTIONS") (ha : appId ≠ "") (hv : vp ≠ "") (ht : t ≠ "") :
    ((handler (postReq m appId vp) (successEnv et t a)).2.filter Event.isDbUpdate
        = [Event.dbUpdate "applications" appId t a "video_analyzed"]) ∧
    (handler (postReq m appId vp) (successEnv et t a)).1.status = 200 ∧
    (handler (postReq m appId vp) (successEnv et t a)).1.body = Body.success t a := by
  simp [handler, postReq, successEnv, truthy, hm, ha, hv, ht, Event.isDbUpdate]

/-- Witness for C1 at a concrete full-success run. -/
theorem analyze_success_single_update_wit :
    ((handler (postReq "POST" "app1" "v.webm") (successEnv "" "hi" (some "an"))).2.filter
        Event.isDbUpdate
        = [Event.dbUpdate "applications" "app1" "hi" (some "an") "video_analyzed"]) ∧
    (handler (postReq "POST" "app1" "v.webm") (successEnv "" "hi" (some "an"))).1.status = 200 ∧
    (handler (postReq "POST" "app1" "v.webm") (successEnv "" "hi" (some "an"))).1.body
        = Body.success "hi" (some "an") :=
  analyze_success_single_update "POST" "app1" "v.webm" "" "hi" (some "an")
    (by decide) (by decide) (by decide) (by decide)

/-- Claim C4: when the storage download returns an error or yields no
data, the handler returns a 500 JSON error response and the transcription
endpoint is never called. -/
theorem analyze_download_failure_no_transcription (m appId vp : String) (env : Env)
    (hm : m ≠ "OPTIONS") (ha : appId ≠ "") (hv : vp ≠ "")
    (hd : env.downloadError ≠ none ∨ env.downloadHasData = false) :
    (handler (postReq m appId vp) env).1.status = 500 ∧
    (∃ msg, (handler (postReq m appId vp) env).1.body = Body.error msg) ∧
    Event.transcription ∉ (handler (postReq m appId vp) env).2 := by
  obtain ⟨de, dh, tok, tet, tt, ce, ac, ue⟩ := env
  rcases de with _ | e
  · rcases hd with h | h
    · simp at h
    · simp only at h
      subst h
      simp [handler, postReq, truthy, hm, ha, hv, errorResponse]
  · simp [handler, postReq, truthy, hm, ha, hv, errorResponse]

/-- Witness for C4 at a concrete failing download. -/
theorem analyze_download_failure_no_transcription_wit :
    (handler (postReq "POST" "app1" "v.webm")
        ⟨some "boom", false, true, "", some "hi", none, none, none⟩).1.status = 500 ∧
    (∃ msg, (handler (postReq "POST" "app1" "v.webm")
        ⟨some "boom", false, true, "", some "hi", none, none, none⟩).1.body = Body.error msg) ∧
    Event.transcription ∉ (handler (postReq "POST" "app1" "v.webm")
        ⟨some "boom", false, true, "", some "hi", none, none, none⟩).2 :=
  analyze_download_failure_no_transcription "POST" "app1" "v.webm"
    ⟨some "boom", false, true, "", some "hi", none, none, none⟩
    (by decide) (by decide) (by decide) (Or.inl (by simp))

/-- Claim C5: when the transcription response is ok but carries no text
(absent or empty transcript), the handler returns a 500 JSON error
response and the chat-completion endpoint is never called. -/
theorem analyze_no_transcript_no_completion (m appId vp et : String)
    (tt ce ac ue : Option String)
    (hm : m ≠ "OPTIONS") (ha : appId ≠ "") (hv : vp ≠ "")
    (ht : truthy tt = false) :
    (handler (postReq m appId vp) ⟨none, true, true, et, tt, ce, ac, ue⟩).1.status = 500 ∧
    (handler (postReq m appId vp) ⟨none, true, true, et, tt, ce, ac, ue⟩).1.body
        = Body.error "No transcript received from OpenAI" ∧
    (∀ s, Event.completion s ∉
        (handler (postReq m appId vp) ⟨none, true, true, et, tt, ce, ac, ue⟩).2) := by
  rcases tt with _ | s
  · simp [handler, postReq, truthy, hm, ha, hv, errorResponse]
  · have hs : s = "" := by simpa [truthy] using ht
    subst hs
    simp [handler, postReq, truthy, hm, ha, hv, errorResponse]

/-- Witness for C5 at a concrete empty transcript. -/
theorem analyze_no_transcript_no_completion_wit :
    (handler (postReq "POST" "app1" "v.webm")
        ⟨none, true, true, "", some "", none, none, none⟩).1.status = 500 ∧
    (handler (postReq "POST" "app1" "v.webm")
        ⟨none, true, true, "", some "", none, none, none⟩).1.body
        = Body.error "No transcript received from OpenAI" ∧
    Event.completion "hi" ∉
        (handler (postReq "POST" "app1" "v.webm")
            ⟨none, true, true, "", some "", none, none, none⟩).2 :=
  ⟨(analyze_no_transcript_no_completion "POST" "app1" "v.webm" ""
      (some "") none none none (by decide) (by decide) (by decide) (by decide)).1,
   (analyze_no_transcript_no_completion "POST" "app1" "v.webm" ""
      (some "") none none none (by decide) (by decide) (by decide) (by decide)).2.1,
   (analyze_no_transcript_no_completion "POST" "app1" "v.webm" ""
      (some "") none none none (by decide) (by decide) (by decide) (by decide)).2.2 "hi"⟩

end AnalyzeVideo

namespace AnalyzeVideo

/-- Every response the handler builds uses either the bare CORS headers
(pre-flight) or the CORS headers extended with a content type. -/
theorem handler_headers_cases (req : Request) (env : Env) :
    (handler req env).1.headers = corsHeaders ∨
    (handler req env).1.headers = jsonHeaders := by
  unfold handler errorResponse
  repeat' split
  all_goals first
    | exact Or.inl rfl
    | exact Or.inr rfl

/-- Claim C7: every response of the handler — pre-flight, success and
error alike — carries both cross-origin headers, and an OPTIONS request
always receives the body-less response with exactly the CORS headers,
whatever the rest of the request holds. -/
theorem analyze_cors_on_every_response (req : Request) (env : Env) :
    ("Access-Control-Allow-Origin", "*") ∈ (handler req env).1.headers ∧
    ("Access-Control-Allow-Headers", "authorization, x-client-info, apikey, content-type")
        ∈ (handler req env).1.headers ∧
    (req.method = "OPTIONS" →
      (handler req env).1.body = Body.empty ∧
      (handler req env).1.headers = corsHeaders ∧
      (handler req env).1.status = 200) := by
  refine ⟨?_, ?_, ?_⟩
  · rcases handler_headers_cases req env with h | h <;>
      rw [h] <;> simp [corsHeaders, jsonHeaders]
  · rcases handler_headers_cases req env with h | h <;>
      rw [h] <;> simp [corsHeaders, jsonHeaders]
  · intro hm
    simp [handler, hm]

/-- Witness for C7 at a concrete pre-flight request. -/
theorem analyze_cors_on_every_response_wit :
    ("Access-Control-Allow-Origin", "*")
        ∈ (handler ⟨"OPTIONS", none⟩ ⟨none, true, true, "", none, none, none, none⟩).1.headers ∧
    ("Access-Control-Allow-Headers", "authorization, x-client-info, apikey, content-type")
        ∈ (handler ⟨"OPTIONS", none⟩ ⟨none, true, true, "", none, none, none, none⟩).1.headers ∧
    (handler ⟨"OPTIONS", none⟩ ⟨none, true, true, "", none, none, none, none⟩).1.body
        = Body.empty ∧
    (handler ⟨"OPTIONS", none⟩ ⟨none, true, true, "", none, none, none, none⟩).1.headers
        = corsHeaders ∧
    (handler ⟨"OPTIONS", none⟩ ⟨none, true, true, "", none, none, none, none⟩).1.status = 200 :=
  ⟨(analyze_cors_on_every_response ⟨"OPTIONS", none⟩
      ⟨none, true, true, "", none, none, none, none⟩).1,
   (analyze_cors_on_every_response ⟨"OPTIONS", none⟩
      ⟨none, true, true, "", none, none, none, none⟩).2.1,
   (analyze_cors_on_every_response ⟨"OPTIONS", none⟩
      ⟨none, true, true, "", none, none, none, none⟩).2.2 rfl⟩

/-- Claim C9: a parsed body lacking applicationId or videoPath — or
carrying an empty string in either — makes the handler return a 500 JSON
error response before any external call: the trace is empty, so storage,
transcription, completion and the database are never contacted. -/
theorem analyze_missing_params_rejected (m : String) (b : ReqBody) (env : Env)
    (hm : m ≠ "OPTIONS")
    (h : truthy b.applicationId = false ∨ truthy b.videoPath = false) :
    (handler ⟨m, some b⟩ env).1.status = 500 ∧
    (handler ⟨m, some b⟩ env).1.body
        = Body.error "Missing required parameters: applicationId or videoPath" ∧
    (handler ⟨m, some b⟩ env).2 = [] := by
  rcases h with h | h <;> simp [handler, hm, h, errorResponse]

/-- Witness for C9 at a body whose videoPath is the empty string. -/
theorem analyze_missing_params_rejected_wit :
    (handler ⟨"POST", some ⟨some "app1", some ""⟩⟩
        ⟨none, true, true, "", none, none, none, none⟩).1.status = 500 ∧
    (handler ⟨"POST", some ⟨some "app1", some ""⟩⟩
        ⟨none, true, true, "", none, none, none, none⟩).1.body
        = Body.error "Missing required parameters: applicationId or videoPath" ∧
    (handler ⟨"POST", some ⟨some "app1", some ""⟩⟩
        ⟨none, true, true, "", none, none, none, none⟩).2 = [] :=
  analyze_missing_params_rejected "POST" ⟨some "app1", some ""⟩
    ⟨none, true, true, "", none, none, none, none⟩ (by decide) (Or.inr (by decide))

end AnalyzeVideo

namespace FileUpload

/-- Claim C2: when the upload and the invocation both succeed but the
returned data lacks a description (null data, absent field, or empty
string), the widget never calls the `onProcessed` callback and shows the
destructive error toast instead. -/
theorem widget_missing_description_no_callback (name : String) (rest : List String)
    (env : WidgetEnv)
    (hu : env.uploadError = none) (hi : env.invokeError = none)
    (hd : truthy (env.invokeData.bind JobDocData.description) = false) :
    (∀ r, WEvent.processedCallback r ∉ handleFileChange (name :: rest) env) ∧
    WEvent.toast false "Error" "No content extracted from document"
        ∈ handleFileChange (name :: rest) env := by
  obtain ⟨now, ue, ie, idta⟩ := env
  simp only at hu hi hd
  subst hu hi
  rcases idta with _ | d
  · simp [handleFileChange]
  · rcases hdd : d.description with _ | s
    · simp [handleFileChange, truthy, hdd]
    · have hs : s = "" := by
        simp only [Option.bind, hdd, truthy] at hd
        simpa using hd
      subst hs
      simp [handleFileChange, truthy, hdd]

/-- Witness for C2 at a run whose invocation returns data with an empty
description. -/
theorem widget_missing_description_no_callback_wit :
    WEvent.processedCallback ⟨some "T", some "", none, none, []⟩ ∉
        handleFileChange ["a.pdf"] ⟨42, none, none, some ⟨some "T", some "", none, none, none⟩⟩ ∧
    WEvent.toast false "Error" "No content extracted from document"
        ∈ handleFileChange ["a.pdf"] ⟨42, none, none, some ⟨some "T", some "", none, none, none⟩⟩ :=
  ⟨(widget_missing_description_no_callback "a.pdf" []
      ⟨42, none, none, some ⟨some "T", some "", none, none, none⟩⟩ rfl rfl (by decide)).1
      ⟨some "T", some "", none, none, []⟩,
   (widget_missing_description_no_callback "a.pdf" []
      ⟨42, none, none, some ⟨some "T", some "", none, none, none⟩⟩ rfl rfl (by decide)).2⟩

/-- Claim C3: every invocation of `handleFileChange` that begins
processing a selected file writes the busy flag exactly twice — first
true, then false — on the success path and on every failure path, so the
flag is never left true. -/
theorem widget_busy_flag_balanced (name : String) (rest : List String) (env : WidgetEnv) :
    (handleFileChange (name :: rest) env).filter WEvent.isSetUploading
        = [WEvent.setUploading true, WEvent.setUploading false] := by
  obtain ⟨now, ue, ie, idta⟩ := env
  rcases ue with _ | e
  · rcases ie with _ | e
    · rcases idta with _ | d
      · simp [handleFileChange, WEvent.isSetUploading]
      · by_cases hd : truthy d.description <;>
          simp [handleFileChange, WEvent.isSetUploading, hd]
    · simp [handleFileChange, WEvent.isSetUploading]
  · simp [handleFileChange, WEvent.isSetUploading]

/-- Witness for C3 at a concrete failing upload. -/
theorem widget_busy_flag_balanced_wit :
    (handleFileChange ["a.pdf"] ⟨42, some "boom", none, none⟩).filter WEvent.isSetUploading
        = [WEvent.setUploading true, WEvent.setUploading false] :=
  widget_busy_flag_balanced "a.pdf" [] ⟨42, some "boom", none, none⟩

/-- Claim C6: with a selected file the widget performs at most one upload
and at most one invocation, in that order; the invocation happens exactly
when the upload reported no error, and never after a failed upload. -/
theorem widget_upload_before_invoke (name : String) (rest : List String) (env : WidgetEnv) :
    (env.uploadError = none →
      (handleFileChange (name :: rest) env).filter
          (fun e => e.isUpload || e.isInvoke)
        = [WEvent.upload "job-documents" (filePathOf env.now name),
           WEvent.invoke "process-job-document" (filePathOf env.now name)]) ∧
    (∀ msg, env.uploadError = some msg →
      (handleFileChange (name :: rest) env).filter
          (fun e => e.isUpload || e.isInvoke)
        = [WEvent.upload "job-documents" (filePathOf env.now name)]) := by
  obtain ⟨now, ue, ie, idta⟩ := env
  constructor
  · intro hu
    simp only at hu
    subst hu
    rcases ie with _ | e
    · rcases idta with _ | d
      · simp [handleFileChange, WEvent.isUpload, WEvent.isInvoke]
      · by_cases hd : truthy d.description <;>
          simp [handleFileChange, WEvent.isUpload, WEvent.isInvoke, hd]
    · simp [handleFileChange, WEvent.isUpload, WEvent.isInvoke]
  · intro msg hu
    simp only at hu
    subst hu
    simp [handleFileChange, WEvent.isUpload, WEvent.isInvoke]

/-- Witness for C6 at a successful upload and a concrete environment. -/
theorem widget_upload_before_invoke_wit :
    (handleFileChange ["a.pdf"] ⟨42, none, none, none⟩).filter
        (fun e => e.isUpload || e.isInvoke)
      = [WEvent.upload "job-documents" (filePathOf 42 "a.pdf"),
         WEvent.invoke "process-job-document" (filePathOf 42 "a.pdf")] :=
  (widget_upload_before_invoke "a.pdf" [] ⟨42, none, none, none⟩).1 rfl

/-- Claim C8: the storage key the widget builds is exactly
`job-documents/` followed by the timestamp, an underscore, and the file
name with every character above code point 0x7F removed and every ASCII
character kept in its original order; moreover the trace holds exactly
one upload, at that key. -/
theorem widget_storage_key_shape (name : String) (rest : List String) (env : WidgetEnv) :
    (handleFileChange (name :: rest) env).filter WEvent.isUpload
        = [WEvent.upload "job-documents"
            ("job-documents/" ++ toString env.now ++ "_" ++ sanitizeFileName name)] ∧
    (sanitizeFileName name).data = name.data.filter (fun c => c.toNat ≤ 0x7F) := by
  obtain ⟨now, ue, ie, idta⟩ := env
  refine ⟨?_, rfl⟩
  rcases ue with _ | e
  · rcases ie with _ | e
    · rcases idta with _ | d
      · simp [handleFileChange, WEvent.isUpload, filePathOf]
      · by_cases hd : truthy d.description <;>
          simp [handleFileChange, WEvent.isUpload, filePathOf, hd]
    · simp [handleFileChange, WEvent.isUpload, filePathOf]
  · simp [handleFileChange, WEvent.isUpload, filePathOf]

/-- Witness for C8 at a file name holding non-ASCII characters. -/
theorem widget_storage_key_shape_wit :
    (handleFileChange ["résumé.pdf"] ⟨42, none, none, none⟩).filter WEvent.isUpload
        = [WEvent.upload "job-documents"
            ("job-documents/" ++ toString 42 ++ "_" ++ sanitizeFileName "résumé.pdf")] ∧
    (sanitizeFileName "résumé.pdf").data
        = "résumé.pdf".data.filter (fun c => c.toNat ≤ 0x7F) :=
  widget_storage_key_shape "résumé.pdf" [] ⟨42, none, none, none⟩

/-- Claim C10: when no file is selected, `handleFileChange` returns at
once with an empty effect trace: no upload, no invocation, no callback,
no toast, and no write to the busy flag. -/
theorem widget_no_file_no_effects (files : List String) (env : WidgetEnv)
    (h : files.head? = none) :
    handleFileChange files env = [] := by
  rcases files with _ | ⟨f, r⟩
  · rfl
  · simp at h

/-- Witness for C10 at the empty file list. -/
theorem widget_no_file_no_effects_wit :
    handleFileChange [] ⟨42, none, none, none⟩ = [] :=
  widget_no_file_no_effects [] ⟨42, none, none, none⟩ rfl

end FileUpload
